import Mathlib

/-!
Verification of the cake-ordering bot (combined_bot.py / o3.py / user_bot.py)
against its natural-language specification.

The bot keeps its order ledger in a Google-Sheets worksheet.  We embed the
worksheet shallowly: a cell is either a stored string or a stored number
(`Cell`), a row is a list of cells, and the ledger is the list of rows of the
orders worksheet, the header row included, exactly as returned by
`get_all_values`.  The record view returned by `get_all_records` (one dict per
data row, keyed by the header row, numeric-looking values numericised) is
embedded by the `recordVal?` / `Cell.recordStr` accessors.  Python string
operations used by the handlers (`strip`, `isdigit`, `lower`, `split`,
`int(...)`) are embedded as structurally recursive functions on the character
list of the string, restricted to the character classes the bot manipulates
(ASCII plus Cyrillic letters, ASCII whitespace and digits).
-/

namespace CakeBot

/-- Strip of leading and trailing whitespace on a character list; the model of
Python str.strip() for the whitespace characters the bot encounters. -/
def stripChars (cs : List Char) : List Char :=
  ((cs.dropWhile Char.isWhitespace).reverse.dropWhile Char.isWhitespace).reverse

/-- Python str.strip(). -/
def pyStrip (s : String) : String :=
  ⟨stripChars s.data⟩

/-- Python str.isdigit(): nonempty and all characters decimal digits
(the ASCII digits; the bot never feeds it other Unicode digit classes). -/
def pyIsdigit (s : String) : Bool :=
  !s.data.isEmpty && s.data.all Char.isDigit

/-- Numeric value of a decimal digit character. -/
def digitVal (c : Char) : Nat :=
  c.toNat - '0'.toNat

/-- Value of a list of decimal digit characters, most significant first. -/
def digitsToNat (cs : List Char) : Nat :=
  cs.foldl (fun a c => a * 10 + digitVal c) 0

/-- Python int(s) on a string: surrounding whitespace stripped, an optional
sign followed by at least one decimal digit; anything else raises ValueError,
modelled as none. -/
def pyInt? (s : String) : Option Int :=
  match stripChars s.data with
  | [] => none
  | c :: cs =>
    if c = '-' then
      if cs.isEmpty || !cs.all Char.isDigit then none
      else some (-(digitsToNat cs : Int))
    else if c = '+' then
      if cs.isEmpty || !cs.all Char.isDigit then none
      else some ((digitsToNat cs : Int))
    else if (c :: cs).all Char.isDigit then some ((digitsToNat (c :: cs) : Int))
    else none

/-- Python str.lower() on one character, for the alphabets the bot uses:
ASCII A-Z, Cyrillic А-Я and Ё. -/
def pyLowerChar (c : Char) : Char :=
  let n := c.toNat
  if 0x41 ≤ n && n ≤ 0x5A then Char.ofNat (n + 0x20)
  else if 0x410 ≤ n && n ≤ 0x42F then Char.ofNat (n + 0x20)
  else if n = 0x401 then Char.ofNat 0x451
  else c

/-- Python str.lower(). -/
def pyLower (s : String) : String :=
  ⟨s.data.map pyLowerChar⟩

/-- Python str.split(maxsplit=1) with whitespace splitting: leading whitespace
skipped, the first whitespace-free token, then the remainder with its leading
whitespace removed, kept verbatim. -/
def pySplitMax1 (s : String) : List String :=
  let cs := s.data.dropWhile Char.isWhitespace
  if cs.isEmpty then []
  else
    let tok := cs.takeWhile (fun c => !c.isWhitespace)
    let rest := (cs.dropWhile (fun c => !c.isWhitespace)).dropWhile Char.isWhitespace
    if rest.isEmpty then [⟨tok⟩] else [⟨tok⟩, ⟨rest⟩]

/-- Helper for pySplitAll, with fuel bounded by the length of the list. -/
def splitAllAux : Nat → List Char → List String
  | 0, _ => []
  | fuel + 1, cs =>
    match cs.dropWhile Char.isWhitespace with
    | [] => []
    | c :: rest =>
      let tok := (c :: rest).takeWhile (fun x => !x.isWhitespace)
      let remaining := (c :: rest).dropWhile (fun x => !x.isWhitespace)
      String.mk tok :: splitAllAux fuel remaining

/-- Python str.split() with no arguments: all whitespace-separated tokens. -/
def pySplitAll (s : String) : List String :=
  splitAllAux s.data.length s.data

/-- A worksheet cell: Google Sheets stores either a string or a number.
The bot only ever writes strings and integers (the OrderID). -/
inductive Cell where
  | str : String → Cell
  | int : Int → Cell
deriving DecidableEq, Repr

/-- The string Sheets renders for a cell, as seen through get_all_values:
a number renders as its decimal numeral. -/
def Cell.render : Cell → String
  | .str s => s
  | .int n => toString n

/-- Python int() applied to the rendered value of a cell (the composition
int(get_all_values()[i][j]) in the source): for an integer cell the rendered
decimal numeral parses back to the same integer. -/
def Cell.toInt? : Cell → Option Int
  | .int n => some n
  | .str s => pyInt? s

/-- str() of the value get_all_records returns for a cell: get_all_records
numericises integer-looking strings, and str() then renders the integer
canonically; other strings are returned verbatim.  (Float numericisation is
not modelled; no claim touches float-valued cells.) -/
def Cell.recordStr : Cell → String
  | .int n => toString n
  | .str s =>
    match pyInt? s with
    | some n => toString n
    | none => s

/-- A worksheet row. -/
abbrev Row := List Cell

/-- The orders worksheet: all rows, the header row first, exactly the value of
get_all_values(). -/
abbrev Ledger := List Row

/-- Header row of the orders table (section 6 of the spec). -/
def ordersHeader : Row :=
  [.str "OrderID", .str "user_id", .str "user_name", .str "cake_name",
   .str "price", .str "taste", .str "size", .str "decor", .str "status",
   .str "date"]

/-- Header row of a ledger, row_values(1); empty for an empty sheet. -/
def ledgerHeader (l : Ledger) : Row :=
  l.headD []

/-- Data rows of a ledger, the records get_all_records iterates over. -/
def ledgerRecords (l : Ledger) : List Row :=
  l.tail

/-- Value of the record built from a row for a header key (dict access in
get_all_records output): none when the key is not a header column, the cell
at the column index otherwise, short rows padded with empty strings. -/
def recordVal? (header row : Row) (key : String) : Option Cell :=
  match header.findIdx? (fun c => c.render == key) with
  | some i => some (row.getD i (.str ""))
  | none => none

/-- str(order.get(key)): str of the record value, str(None) = "None" when the
key is absent. -/
def recordShow (header row : Row) (key : String) : String :=
  match recordVal? header row key with
  | some c => c.recordStr
  | none => "None"

/-- update_cell at a 0-based column index, padding the row with empty cells
when it is shorter than the column position (as the sheet itself would). -/
def setCell (row : Row) (col : Nat) (v : Cell) : Row :=
  if col < row.length then row.set col v
  else row ++ List.replicate (col - row.length) (.str "") ++ [v]

/-- Loop body of update_order_status: scan the data rows in order, write the
new status into the first row whose stringified OrderID equals the
stringified input id, stop there; none when no row matches. -/
def updateLoop (header : Row) (statusIdx : Nat) (oid new_status : String) :
    List Row → Option (List Row)
  | [] => none
  | r :: rs =>
    if recordShow header r "OrderID" == oid then
      some (setCell r statusIdx (.str new_status) :: rs)
    else
      match updateLoop header statusIdx oid new_status rs with
      | some rs2 => some (r :: rs2)
      | none => none

/-- update_order_status of combined_bot.py lines 156-181 (identical in
o3.py lines 178-197 and user_bot.py lines 170-191): look up the status
column in the header row (failure if absent), scan all records for the first
row whose str(order.get('OrderID')) equals str(order_id) — order_id is the
string the admin typed, so str() is the identity on it — and write new_status
into that row's status cell.  Returns the success flag and the new ledger. -/
def update_order_status (ledger : Ledger) (order_id new_status : String) :
    Bool × Ledger :=
  match ledger with
  | [] => (false, [])
  | header :: rows =>
    match header.findIdx? (fun c => c.render == "status") with
    | none => (false, header :: rows)
    | some statusIdx =>
      match updateLoop header statusIdx order_id new_status rows with
      | some rows2 => (true, header :: rows2)
      | none => (false, header :: rows)

/-- A catalog item as the record view of a row of the cakes worksheet. -/
structure Cake where
  name : String
  price : String
  description : String
  photo : String
deriving DecidableEq, Repr

/-- Arguments of one create_new_order call (the caller-supplied draft plus the
wall-clock timestamp the call would read). -/
structure CreateArgs where
  user_id : Int
  user_name : String
  cake : Cake
  taste : String
  size : String
  decor : String
  now : String
deriving DecidableEq, Repr

/-- The fixed initial status create_new_order writes. -/
def initialStatus : String :=
  "ожидается подтверждение администратора"

/-- The row create_new_order appends: the id as a number, the other fields as
stripped strings, the fixed initial status and the timestamp
(combined_bot.py lines 138-149). -/
def orderRow (oid : Int) (a : CreateArgs) : Row :=
  [.int oid, .str (pyStrip (toString a.user_id)), .str (pyStrip a.user_name),
   .str (pyStrip a.cake.name), .str (pyStrip a.cake.price),
   .str (pyStrip a.taste), .str (pyStrip a.size), .str (pyStrip a.decor),
   .str initialStatus, .str a.now]

/-- create_new_order of combined_bot.py lines 124-154 (identical in o3.py and
user_bot.py): read all values, take id 1 when the table has fewer than two
rows, otherwise int() of the first cell of the last row plus one; append the
new row.  The except branch (unparsable or missing last-row cell) returns
none. -/
def create_new_order (ledger : Ledger) (a : CreateArgs) : Option (Int × Ledger) :=
  if ledger.length < 2 then some (1, ledger ++ [orderRow 1 a])
  else
    match ledger.getLast? with
    | none => none
    | some last =>
      match last.head? with
      | none => none
      | some c =>
        match c.toInt? with
        | none => none
        | some n => some (n + 1, ledger ++ [orderRow (n + 1) a])

/-- Sequential (non-concurrent) create_new_order calls: each call sees the
ledger produced by the previous one; the returned ids are collected in order
(none for a failed call). -/
def createSeq : List CreateArgs → Ledger → List (Option Int) × Ledger
  | [], l => ([], l)
  | a :: rest, l =>
    match create_new_order l a with
    | some (oid, l2) =>
      let r := createSeq rest l2
      (some oid :: r.1, r.2)
    | none =>
      let r := createSeq rest l
      (none :: r.1, r.2)

/-- Read exactly one or two decimal digits followed by a non-digit (or the
end): the strptime component patterns for month, day, hour, minute and second
accept at most two digits, and the non-digit literal that follows them in the
format makes a longer digit run fail the whole match. -/
def parse2? : List Char → Option (Nat × List Char)
  | [] => none
  | c1 :: rest =>
    if c1.isDigit then
      match rest with
      | c2 :: rest2 =>
        if c2.isDigit then
          match rest2 with
          | c3 :: _ =>
            if c3.isDigit then none
            else some (digitVal c1 * 10 + digitVal c2, rest2)
          | [] => some (digitVal c1 * 10 + digitVal c2, [])
        else some (digitVal c1, rest)
      | [] => some (digitVal c1, [])
    else none

/-- Read exactly four decimal digits: the strptime pattern for a year. -/
def parse4? : List Char → Option (Nat × List Char)
  | a :: b :: c :: d :: rest =>
    if a.isDigit && b.isDigit && c.isDigit && d.isDigit then
      some (((digitVal a * 10 + digitVal b) * 10 + digitVal c) * 10 + digitVal d,
            rest)
    else none
  | _ => none

/-- Consume one literal character. -/
def expectChar (c : Char) : List Char → Option (List Char)
  | x :: rest => if x = c then some rest else none
  | [] => none

/-- Consume a nonempty whitespace run: a whitespace character in a strptime
format matches one or more whitespace characters. -/
def expectWsRun : List Char → Option (List Char)
  | x :: rest =>
    if x.isWhitespace then some (rest.dropWhile Char.isWhitespace) else none
  | [] => none

/-- Gregorian leap year, as the datetime module computes it. -/
def isLeap (y : Nat) : Bool :=
  y % 4 = 0 && (y % 100 ≠ 0 || y % 400 = 0)

/-- Days in a month, as the datetime constructor validates them. -/
def daysInMonth (y m : Nat) : Nat :=
  if m = 2 then (if isLeap y then 29 else 28)
  else if m = 4 || m = 6 || m = 9 || m = 11 then 30
  else 31

/-- datetime.strptime(s, "%Y-%m-%d %H:%M:%S"): four-digit year, one-or-two
digit month 1-12, day 1-31, hour 0-23, minute and second 0-59, the literal
separators, a full match of the whole string, then the datetime constructor's
validation (year at least MINYEAR = 1, day within the month).  Returns the
parsed fields or none for the ValueError the except branch catches. -/
def strptimeYmdHMS? (s : String) :
    Option (Nat × Nat × Nat × Nat × Nat × Nat) :=
  (parse4? s.data).bind fun p1 =>
  (expectChar '-' p1.2).bind fun r2 =>
  (parse2? r2).bind fun p2 =>
  if p2.1 < 1 || 12 < p2.1 then none else
  (expectChar '-' p2.2).bind fun r4 =>
  (parse2? r4).bind fun p3 =>
  if p3.1 < 1 || 31 < p3.1 then none else
  (expectWsRun p3.2).bind fun r6 =>
  (parse2? r6).bind fun p4 =>
  if 23 < p4.1 then none else
  (expectChar ':' p4.2).bind fun r8 =>
  (parse2? r8).bind fun p5 =>
  if 59 < p5.1 then none else
  (expectChar ':' p5.2).bind fun r10 =>
  (parse2? r10).bind fun p6 =>
  if 59 < p6.1 then none
  else if !p6.2.isEmpty then none
  else if p1.1 < 1 then none
  else if daysInMonth p1.1 p2.1 < p3.1 then none
  else some (p1.1, p2.1, p3.1, p4.1, p5.1, p6.1)

/-- Chronological key of a parsed timestamp: the radix encoding of
(year, month, day, hour, minute, second) with bases 16, 32, 32, 64 and 64,
each strictly larger than the range of the following component, so that the
key order is exactly the chronological (lexicographic) order datetime
comparison uses. -/
def dateEncode : Nat × Nat × Nat × Nat × Nat × Nat → Nat
  | (y, mo, d, h, mi, sec) =>
    ((((y * 16 + mo) * 32 + d) * 32 + h) * 64 + mi) * 64 + sec

/-- Sort key of one record: strptime of its date field.  A missing date
column (KeyError / empty-string default) and a numeric cell (TypeError)
fail just like an unparsable string, all caught by the same except branch. -/
def dateKey? (header : Row) (r : Row) : Option Nat :=
  match recordVal? header r "date" with
  | none => none
  | some (.int _) => none
  | some (.str s) => (strptimeYmdHMS? s).map dateEncode

/-- The key value actually compared once every record parsed. -/
def dateKeyD (header : Row) (r : Row) : Nat :=
  (dateKey? header r).getD 0

/-- The try/except around sorted(orders, key=strptime(...), reverse=True) in
cmd_status (combined_bot.py lines 387-396) and user_check_status (o3.py lines
300-308): Python computes the key of every record, so one unparsable date
raises before any output is produced and the except branch keeps the list in
store-native order; otherwise the list is stably sorted by key, descending. -/
def sortOrdersForDisplay (header : Row) (orders : List Row) : List Row :=
  if orders.all (fun r => (dateKey? header r).isSome) then
    orders.mergeSort (fun a b => decide (dateKeyD header b ≤ dateKeyD header a))
  else orders

/-- Page count of the pagination renderer: (total + page_size - 1) // page_size
(o3.py line 213).  page_size = 0 would raise ZeroDivisionError in the source;
the claims only concern positive page sizes. -/
def pagesCount (total page_size : Nat) : Nat :=
  (total + page_size - 1) / page_size

/-- The previous-page affordance: page > 0 (o3.py line 231). -/
def hasPrevB (page : Nat) : Bool :=
  decide (0 < page)

/-- The next-page affordance: page < pages - 1 in Python integer arithmetic
(o3.py line 233). -/
def hasNextB (total page_size page : Nat) : Bool :=
  decide ((page : Int) < (pagesCount total page_size : Int) - 1)

/-- Fixed multi-line block one record is formatted into on a consumer page
(o3.py lines 218-229). -/
def formatOrderBlockUser (header o : Row) : String :=
  "№ " ++ recordShow header o "OrderID" ++ "\n" ++
  "Торт: " ++ recordShow header o "cake_name" ++ "\n" ++
  "Цена: " ++ recordShow header o "price" ++ " руб.\n" ++
  "Вкус: " ++ recordShow header o "taste" ++ "\n" ++
  "Размер: " ++ recordShow header o "size" ++ " персон\n" ++
  "Декор: " ++ recordShow header o "decor" ++ "\n" ++
  "Статус: " ++ recordShow header o "status" ++ "\n" ++
  "Дата: " ++ recordShow header o "date" ++ "\n" ++
  "-----------------------\n"

/-- Result of the pagination renderer: the page text and the two paging
affordances attached to the rendered message. -/
structure PageView where
  text : String
  hasPrev : Bool
  hasNext : Bool
deriving DecidableEq, Repr

/-- get_orders_page_text_and_markup of o3.py lines 211-238: the 0-based page
slice orders[page*page_size : (page+1)*page_size] formatted block by block,
a previous button exactly when page > 0 and a next button exactly when
page < pages - 1. -/
def get_orders_page_text_and_markup (header : Row) (orders : List Row)
    (page page_size : Nat) : PageView :=
  let total := orders.length
  let chunk := (orders.drop (page * page_size)).take page_size
  ⟨"<b>Ваши заказы:</b>\n\n" ++
     String.join (chunk.map (formatOrderBlockUser header)),
   hasPrevB page, hasNextB total page_size page⟩

/-- Pages visited, starting at page p, by pressing "next" while the renderer
offers it; fuel bounds the walk and is instantiated large enough. -/
def nextPages (total page_size : Nat) : Nat → Nat → List Nat
  | p, 0 => [p]
  | p, fuel + 1 =>
    if hasNextB total page_size p then p :: nextPages total page_size (p + 1) fuel
    else [p]

/-- Page reached from page p by pressing "previous" while the renderer offers
it; fuel bounds the walk and is instantiated large enough. -/
def prevSteps : Nat → Nat → Nat
  | p, 0 => p
  | p, fuel + 1 => if hasPrevB p then prevSteps (p - 1) fuel else p

/-- Dialogue states: the customer-track OrderStates, the operator-track
AdminStates, and Idle for a cleared FSM context. -/
inductive SState where
  | Idle
  | ChoosingCake
  | ChoosingTaste
  | ChoosingSize
  | ChoosingDecor
  | Confirming
  | ViewingOrders
  | UpdatingOrderStatus
deriving DecidableEq, Repr

/-- A per-participant session: the FSM state and the draft fields collected so
far in the FSMContext data dict (absent keys are none). -/
structure Session where
  state : SState
  chosen_cake : Option Cake
  taste : Option String
  size : Option String
  decor : Option String
deriving DecidableEq, Repr

/-- state.clear(): Idle with an empty draft. -/
def clearedSession : Session :=
  ⟨.Idle, none, none, none, none⟩

/-- The fixed denial text for an operator identity on the customer track. -/
def funcDenial : String :=
  "Администратор не может использовать этот функционал."

/-- The fixed denial text for a customer identity on the operator track. -/
def accessDenial : String :=
  "У вас нет доступа к этому боту."

/-- Result of one message handler: the session afterwards and the outbound
messages, in order. -/
structure HandlerResult where
  session : Session
  replies : List String
deriving DecidableEq, Repr

/-- process_choosing_size of combined_bot.py lines 272-284: the role check
only emits a warning (its return is commented out), the input is stripped and
gated by str.isdigit(); a digit string is stored as the size and the state
advances to ChoosingDecor, anything else re-prompts and leaves session and
draft untouched. -/
def process_choosing_size (is_admin : Bool) (sess : Session) (text : String) :
    HandlerResult :=
  let adminMsgs := if is_admin then [funcDenial] else []
  let size := pyStrip text
  if pyIsdigit size then
    ⟨⟨.ChoosingDecor, sess.chosen_cake, sess.taste, some size, sess.decor⟩,
     adminMsgs ++
       ["Какой декор вы бы хотели? (например, ягоды, фигурки, надпись или без декора)"]⟩
  else
    ⟨sess, adminMsgs ++ ["Пожалуйста, введите числовое значение для количества персон."]⟩

/-- Catalog entry rendered for the menu (name, price, description; the photo
variant sends the same text as a caption). -/
def cakeText (c : Cake) : String :=
  "<b>" ++ c.name ++ "</b>\nЦена: " ++ c.price ++ " руб.\n" ++ c.description

/-- Result of cmd_menu: the final state, whether the catalog was fetched, and
the outbound messages. -/
structure MenuResult where
  session_state : SState
  catalogFetched : Bool
  replies : List String
deriving DecidableEq, Repr

/-- cmd_menu of combined_bot.py lines 216-237: the admin check only sends the
denial text — its return on line 220 is commented out — so execution falls
through to the catalog fetch; an empty catalog informs the user and keeps the
state, otherwise the catalog is rendered and the state set to ChoosingCake. -/
def cmd_menu (is_admin : Bool) (catalog : List Cake) (state : SState) :
    MenuResult :=
  let adminMsgs :=
    if is_admin then ["Администратор не может использовать эту команду."] else []
  if catalog.isEmpty then
    ⟨state, true, adminMsgs ++ ["Каталог тортов пока пуст."]⟩
  else
    ⟨.ChoosingCake, true,
     adminMsgs ++ catalog.map cakeText ++ ["Выберите торт, введя его название:"]⟩

/-- Result of one confirmation-state message: the session, the ledger, whether
create_new_order was invoked, and the outbound messages. -/
structure ConfirmResult where
  session : Session
  ledger : Ledger
  createCalled : Bool
  replies : List String
deriving DecidableEq, Repr

/-- process_confirming of combined_bot.py lines 313-367: the decision is made
on message.text.strip().lower(); the affirmative word submits the draft via
create_new_order and clears the state whether or not the create succeeded,
the negative word clears the state without a ledger write, anything else
re-prompts in place.  A missing draft key would raise KeyError before the
create call, aborting the handler with the session unchanged. -/
def process_confirming (is_admin : Bool) (user_id : Int) (user_name : String)
    (sess : Session) (ledger : Ledger) (now text : String) : ConfirmResult :=
  let adminMsgs := if is_admin then [funcDenial] else []
  let response := pyLower (pyStrip text)
  if response = "да" then
    match sess.chosen_cake, sess.taste, sess.size, sess.decor with
    | some cake, some taste, some size, some decor =>
      match create_new_order ledger ⟨user_id, user_name, cake, taste, size, decor, now⟩ with
      | some (oid, l2) =>
        ⟨clearedSession, l2, true,
         adminMsgs ++
           ["Спасибо! Ваш заказ принят.\nНомер заказа: <b>" ++ toString oid ++
              "</b>\nОжидайте подтверждения администратора."]⟩
      | none =>
        ⟨clearedSession, ledger, true,
         adminMsgs ++
           ["Произошла ошибка при оформлении заказа. Пожалуйста, попробуйте позже."]⟩
    | _, _, _, _ => ⟨sess, ledger, false, adminMsgs⟩
  else if response = "нет" then
    ⟨clearedSession, ledger, false,
     adminMsgs ++
       ["Заказ отменён. Если хотите оформить новый заказ, используйте команду /menu."]⟩
  else
    ⟨sess, ledger, false,
     adminMsgs ++ ["Пожалуйста, ответьте Да или Нет для подтверждения заказа."]⟩

/-- next((o for o in all_orders if str(o.get('OrderID')) == order_id), None):
the record looked up after a successful status update to notify its owner. -/
def findOrderRecord (ledger : Ledger) (oid : String) : Option Row :=
  (ledgerRecords ledger).find?
    (fun r => recordShow (ledgerHeader ledger) r "OrderID" == oid)

/-- Result of one operator status-update message: the FSM state afterwards,
the ledger, the arguments update_order_status was invoked with (none when it
was not invoked), the notified customer id, and the outbound messages. -/
structure UpdateStatusResult where
  session_state : SState
  ledger : Ledger
  updateCall : Option (String × String)
  notified : Option Int
  replies : List String
deriving DecidableEq, Repr

/-- process_update_status of combined_bot.py lines 509-545, entered in the
UpdatingOrderStatus state: a non-admin is denied and the state kept; the
stripped input must be nonempty, split(maxsplit=1) must yield exactly two
parts and the first must be a digit string, otherwise the handler re-prompts
and stays; on a valid shape update_order_status is invoked and state.clear()
runs at the end.  After a successful update the order is fetched again to
notify its owner; int() of a non-numeric stored user_id raises there, which
aborts the handler before state.clear(). -/
def process_update_status (is_admin : Bool) (ledger : Ledger) (text : String) :
    UpdateStatusResult :=
  if !is_admin then ⟨.UpdatingOrderStatus, ledger, none, none, [accessDenial]⟩
  else
    let input := pyStrip text
    if input = "" then
      ⟨.UpdatingOrderStatus, ledger, none, none,
       ["Пожалуйста, введите OrderID и новый статус через пробел."]⟩
    else
      match pySplitMax1 input with
      | [oid, st] =>
        if pyIsdigit oid then
          let r := update_order_status ledger oid st
          if r.1 then
            match findOrderRecord r.2 oid with
            | some o =>
              match pyInt? (recordShow (ledgerHeader r.2) o "user_id") with
              | some uid =>
                ⟨.Idle, r.2, some (oid, st), some uid,
                 ["Статус заказа обновлён. Уведомление пользователю отправлено."]⟩
              | none => ⟨.UpdatingOrderStatus, r.2, some (oid, st), none, []⟩
            | none =>
              ⟨.Idle, r.2, some (oid, st), none,
               ["Статус заказа обновлён, но не удалось найти информацию о заказе для уведомления пользователя."]⟩
          else
            ⟨.Idle, r.2, some (oid, st), none,
             ["Не удалось обновить статус заказа. Убедитесь, что OrderID верный."]⟩
        else
          ⟨.UpdatingOrderStatus, ledger, none, none, ["OrderID должен быть числом."]⟩
      | _ =>
        ⟨.UpdatingOrderStatus, ledger, none, none,
         ["Неверный формат. Введите OrderID и новый статус через пробел."]⟩

/-- The validation the status-update handler applies to the operator input:
strip, split at the first whitespace run with maxsplit 1, exactly two parts,
first part a digit string.  Returns the id and status arguments the update is
invoked with. -/
def parseUpdateInput? (text : String) : Option (String × String) :=
  match pySplitMax1 (pyStrip text) with
  | [oid, st] => if pyIsdigit oid then some (oid, st) else none
  | _ => none

/-- The text of the cancel button (o3.py CANCEL_TEXT). -/
def cancelText : String :=
  "Отмена"

/-- Per-event environment of the o3.py bot: the identity of the message
sender, the catalog snapshot the handlers would fetch, and the wall clock. -/
structure Env where
  is_admin : Bool
  user_id : Int
  user_name : String
  catalog : List Cake
  now : String
deriving Repr

/-- Result of dispatching one inbound message: the session, the ledger and
the outbound messages. -/
structure StepResult where
  session : Session
  ledger : Ledger
  replies : List String
deriving DecidableEq, Repr

/-- handle_cancel of o3.py lines 108-114: state.clear() and a return-to-menu
message that only depends on the role. -/
def o3_handle_cancel (env : Env) (ledger : Ledger) : StepResult :=
  ⟨clearedSession, ledger,
   [if env.is_admin then "Возврат в админ-меню." else "Возврат в пользовательское меню."]⟩

/-- handle_start of o3.py lines 242-250: state.clear() and a greeting. -/
def o3_handle_start (env : Env) (ledger : Ledger) : StepResult :=
  ⟨clearedSession, ledger,
   [if env.is_admin then "Привет, Администратор!"
    else "Привет! Я бот для оформления заказов на торты."]⟩

/-- The empty dict data.get('chosen_cake', ...) falls back to. -/
def Cake.empty : Cake :=
  ⟨"", "", "", ""⟩

/-- user_make_order of o3.py lines 257-283: an admin is denied and nothing
else happens; an empty catalog informs the user and keeps the state; otherwise
the catalog is rendered and the state set to ChoosingCake (the draft data is
not cleared by set_state). -/
def o3_user_make_order (env : Env) (ledger : Ledger) (sess : Session) :
    StepResult :=
  if env.is_admin then ⟨sess, ledger, [funcDenial]⟩
  else if env.catalog.isEmpty then ⟨sess, ledger, ["Каталог тортов пока пуст."]⟩
  else
    ⟨⟨.ChoosingCake, sess.chosen_cake, sess.taste, sess.size, sess.decor⟩,
     ledger, env.catalog.map cakeText ++ ["Введите название торта:"]⟩

/-- get_all_orders_by_user of o3.py lines 139-149: the records whose stored
user_id, stringified and stripped, equals str(user_id). -/
def get_all_orders_by_user (ledger : Ledger) (user_id : Int) : List Row :=
  (ledgerRecords ledger).filter
    (fun r =>
      pyStrip (match recordVal? (ledgerHeader ledger) r "user_id" with
               | some c => c.recordStr
               | none => "") == toString user_id)

/-- user_check_status of o3.py lines 285-313: an admin is denied; no orders
informs the user; otherwise the user's orders are sorted for display and page
0 of size 1 rendered with the pagination markup. -/
def o3_user_check_status (env : Env) (ledger : Ledger) (sess : Session) :
    StepResult :=
  if env.is_admin then ⟨sess, ledger, [funcDenial]⟩
  else
    let orders := get_all_orders_by_user ledger env.user_id
    if orders.isEmpty then ⟨sess, ledger, ["У вас ещё нет заказов."]⟩
    else
      let sorted := sortOrdersForDisplay (ledgerHeader ledger) orders
      ⟨sess, ledger,
       [(get_orders_page_text_and_markup (ledgerHeader ledger) sorted 0 1).text]⟩

/-- user_choosing_cake of o3.py lines 345-366: the stripped, lowercased cancel
check runs first; then the admin denial; then the case-insensitive catalog
match, capturing the full cake record into the draft on success. -/
def o3_user_choosing_cake (env : Env) (ledger : Ledger) (sess : Session)
    (text : String) : StepResult :=
  if pyLower (pyStrip text) = pyLower cancelText then o3_handle_cancel env ledger
  else if env.is_admin then ⟨sess, ledger, [funcDenial]⟩
  else
    match env.catalog.find? (fun c => pyLower c.name == pyLower (pyStrip text)) with
    | none =>
      ⟨sess, ledger, ["Такого торта нет в каталоге. Попробуйте ещё раз или нажмите Отмена."]⟩
    | some cake =>
      ⟨⟨.ChoosingTaste, some cake, sess.taste, sess.size, sess.decor⟩,
       ledger, ["Какой вкус вы предпочитаете?"]⟩

/-- user_choosing_taste of o3.py lines 368-377: cancel check, then the taste
stored verbatim (stripped) and the state advanced. -/
def o3_user_choosing_taste (env : Env) (ledger : Ledger) (sess : Session)
    (text : String) : StepResult :=
  if pyLower (pyStrip text) = pyLower cancelText then o3_handle_cancel env ledger
  else
    ⟨⟨.ChoosingSize, sess.chosen_cake, some (pyStrip text), sess.size, sess.decor⟩,
     ledger, ["На сколько персон?"]⟩

/-- user_choosing_size of o3.py lines 379-392: cancel check, then the
str.isdigit() gate; a digit string advances, anything else re-prompts. -/
def o3_user_choosing_size (env : Env) (ledger : Ledger) (sess : Session)
    (text : String) : StepResult :=
  if pyLower (pyStrip text) = pyLower cancelText then o3_handle_cancel env ledger
  else
    let size := pyStrip text
    if !pyIsdigit size then
      ⟨sess, ledger, ["Пожалуйста, введите число или нажмите Отмена."]⟩
    else
      ⟨⟨.ChoosingDecor, sess.chosen_cake, sess.taste, some size, sess.decor⟩,
       ledger, ["Какой декор? (например: ягоды, фигурки...)"]⟩

/-- Confirmation summary rendered on entering Confirming (o3.py 408-415). -/
def confirmationText (cake : Cake) (taste size decor : String) : String :=
  "Пожалуйста, подтвердите заказ:\n\n" ++
  "Торт: <b>" ++ cake.name ++ "</b>\n" ++
  "Вкус: " ++ taste ++ "\n" ++
  "Размер: " ++ size ++ " персон\n" ++
  "Декор: " ++ decor ++ "\n\n" ++
  "Отправьте «Да» для подтверждения или «Нет» для отмены."

/-- user_choosing_decor of o3.py lines 394-427: cancel check, then the decor
stored, the summary rendered and the state set to Confirming. -/
def o3_user_choosing_decor (env : Env) (ledger : Ledger) (sess : Session)
    (text : String) : StepResult :=
  if pyLower (pyStrip text) = pyLower cancelText then o3_handle_cancel env ledger
  else
    let decor := pyStrip text
    ⟨⟨.Confirming, sess.chosen_cake, sess.taste, sess.size, some decor⟩,
     ledger,
     [confirmationText (sess.chosen_cake.getD Cake.empty) (sess.taste.getD "")
        (sess.size.getD "") decor]⟩

/-- Fixed multi-line block one record is formatted into on an operator page
(o3.py lines 519-531). -/
def formatOrderBlockAdmin (header o : Row) : String :=
  "№ " ++ recordShow header o "OrderID" ++ "\n" ++
  "Пользователь: @" ++ recordShow header o "user_name" ++
    " (ID: " ++ recordShow header o "user_id" ++ ")\n" ++
  "Торт: " ++ recordShow header o "cake_name" ++ "\n" ++
  "Цена: " ++ recordShow header o "price" ++ " руб.\n" ++
  "Вкус: " ++ recordShow header o "taste" ++ "\n" ++
  "Размер: " ++ recordShow header o "size" ++ " персон\n" ++
  "Декор: " ++ recordShow header o "decor" ++ "\n" ++
  "Статус: " ++ recordShow header o "status" ++ "\n" ++
  "Дата: " ++ recordShow header o "date" ++ "\n" ++
  "-----------------------\n"

/-- The page texts of the operator order view, ten records per message. -/
def adminOrdersTexts (header : Row) (sorted : List Row) : List String :=
  (List.range (pagesCount sorted.length 10)).map
    (fun page =>
      "<b>Заказы:</b>\n\n" ++
      String.join (((sorted.drop (page * 10)).take 10).map
        (formatOrderBlockAdmin header)))

/-- admin_view_orders_menu of o3.py lines 482-532: a non-admin is denied;
orders with status "Доставлен" are filtered out, the rest sorted for display
and emitted in pages of ten. -/
def o3_admin_view_orders (env : Env) (ledger : Ledger) (sess : Session) :
    StepResult :=
  if !env.is_admin then ⟨sess, ledger, [accessDenial]⟩
  else
    let all := ledgerRecords ledger
    if all.isEmpty then ⟨sess, ledger, ["Нет доступных заказов."]⟩
    else
      let filtered :=
        all.filter (fun r => recordShow (ledgerHeader ledger) r "status" != "Доставлен")
      if filtered.isEmpty then ⟨sess, ledger, ["Нет заказов, ожидающих подтверждения."]⟩
      else
        ⟨sess, ledger,
         adminOrdersTexts (ledgerHeader ledger)
           (sortOrdersForDisplay (ledgerHeader ledger) filtered)⟩

/-- admin_update_status_menu of o3.py lines 534-546: a non-admin is denied,
otherwise the prompt is sent and the state set to UpdatingOrderStatus. -/
def o3_admin_update_status_menu (env : Env) (ledger : Ledger) (sess : Session) :
    StepResult :=
  if !env.is_admin then ⟨sess, ledger, [accessDenial]⟩
  else
    ⟨⟨.UpdatingOrderStatus, sess.chosen_cake, sess.taste, sess.size, sess.decor⟩,
     ledger, ["Введите OrderID и новый статус через пробел."]⟩

/-- admin_process_update_status of o3.py lines 548-591: cancel check first,
then the admin check, then the same two-token-and-digits validation as the
combined bot; on a valid shape the update runs and state.clear() ends the
handler.  The post-update notification uses int(order.get('user_id', 0)),
which raises on a non-numeric stored user id and aborts before
state.clear(). -/
def o3_admin_process_update_status (env : Env) (ledger : Ledger)
    (sess : Session) (text : String) : StepResult :=
  if pyLower (pyStrip text) = pyLower cancelText then o3_handle_cancel env ledger
  else if !env.is_admin then ⟨sess, ledger, [accessDenial]⟩
  else
    match pySplitMax1 (pyStrip text) with
    | [oid, st] =>
      if pyIsdigit oid then
        let r := update_order_status ledger oid st
        if r.1 then
          match findOrderRecord r.2 oid with
          | some o =>
            match recordVal? (ledgerHeader r.2) o "user_id" with
            | none =>
              ⟨clearedSession, r.2,
               ["Статус заказа обновлён. Уведомление пользователю отправлено."]⟩
            | some c =>
              match c.toInt? with
              | some _ =>
                ⟨clearedSession, r.2,
                 ["Статус заказа обновлён. Уведомление пользователю отправлено."]⟩
              | none => ⟨sess, r.2, []⟩
          | none =>
            ⟨clearedSession, r.2,
             ["Статус заказа обновлён, но не удалось найти заказ для уведомления пользователя."]⟩
        else
          ⟨clearedSession, r.2, ["Не удалось обновить статус. Проверьте OrderID."]⟩
      else ⟨sess, ledger, ["OrderID должен быть числом."]⟩
    | _ =>
      ⟨sess, ledger, ["Неверный формат. Введите OrderID и новый статус через пробел."]⟩

/-- The Command("start") filter: a message invoking the start command. -/
def isStartCommand (t : String) : Bool :=
  t == "/start" || List.isPrefixOf "/start ".data t.data

/-- The o3.py message-router dispatch, in handler registration order:
Command("start"); the global text == "Отмена" cancel handler — registered
before every state handler, so the cancel signal is handled in any state
before state-specific input handling; the two customer menu buttons; the four
customer track state handlers; the two operator menu buttons; the operator
status-update state handler; otherwise no handler matches and the event is
dropped.  (The Confirming state of o3.py is driven by callback buttons, so a
plain text in Confirming reaches no state handler.) -/
def o3_handle_message (env : Env) (ledger : Ledger) (sess : Session)
    (text : String) : StepResult :=
  if isStartCommand text then o3_handle_start env ledger
  else if text = cancelText then o3_handle_cancel env ledger
  else if text = "Сделать заказ" then o3_user_make_order env ledger sess
  else if text = "Статус заказов" then o3_user_check_status env ledger sess
  else if sess.state = .ChoosingCake then o3_user_choosing_cake env ledger sess text
  else if sess.state = .ChoosingTaste then o3_user_choosing_taste env ledger sess text
  else if sess.state = .ChoosingSize then o3_user_choosing_size env ledger sess text
  else if sess.state = .ChoosingDecor then o3_user_choosing_decor env ledger sess text
  else if text = "Просмотреть заказы" then o3_admin_view_orders env ledger sess
  else if text = "Обновить статус заказа" then o3_admin_update_status_menu env ledger sess
  else if sess.state = .UpdatingOrderStatus then
    o3_admin_process_update_status env ledger sess text
  else ⟨sess, ledger, []⟩

/-! ## Theorems -/

/-- The scan of update_order_status finds nothing when no record's stringified
OrderID equals the stringified input id. -/
lemma updateLoop_eq_none (header : Row) (si : Nat) (oid st : String)
    (rows : List Row)
    (h : ∀ r ∈ rows, recordShow header r "OrderID" ≠ oid) :
    updateLoop header si oid st rows = none := by
  induction rows with
  | nil => rfl
  | cons r rs ih =>
    have hr : (recordShow header r "OrderID" == oid) = false := by
      simp [h r (List.mem_cons_self r rs)]
    simp [updateLoop, hr,
      ih (fun r2 hr2 => h r2 (List.mem_cons_of_mem _ hr2))]

/-- The not-found branch of update_order_status returns failure with the
ledger untouched. -/
lemma update_status_no_match (ledger : Ledger) (oid st : String)
    (h : ∀ r ∈ ledgerRecords ledger,
      recordShow (ledgerHeader ledger) r "OrderID" ≠ oid) :
    update_order_status ledger oid st = (false, ledger) := by
  match ledger with
  | [] => rfl
  | header :: rows =>
    have h2 : ∀ r ∈ rows, recordShow header r "OrderID" ≠ oid := by
      simpa [ledgerRecords, ledgerHeader] using h
    cases hfind : header.findIdx? (fun c => c.render == "status") with
    | none => simp [update_order_status, hfind]
    | some si =>
      simp [update_order_status, hfind,
        updateLoop_eq_none header si oid st rows h2]

/-- C2: for every ledger state and every OrderID matching no stored order's
id (no record's stringified OrderID equals the input id), update_order_status
returns failure and the ledger is returned unmodified — no cell is written. -/
theorem update_status_not_found (ledger : Ledger) (oid st : String)
    (h : ∀ r ∈ ledgerRecords ledger,
      recordShow (ledgerHeader ledger) r "OrderID" ≠ oid) :
    update_order_status ledger oid st = (false, ledger) :=
  update_status_no_match ledger oid st h

/-- Concrete ledger with one stored order, id 2, for the C2 witness. -/
def ledgerC2 : Ledger :=
  [ordersHeader,
   [.int 2, .int 7, .str "u", .str "Шоколадный", .int 500, .str "шоколад",
    .int 8, .str "ягоды", .str initialStatus, .str "2024-05-06 07:08:09"]]

/-- Witness for C2: updating order 3 in a ledger holding only order 2 fails
and leaves the ledger unchanged. -/
theorem update_status_not_found_witness :
    (∀ r ∈ ledgerRecords ledgerC2,
      recordShow (ledgerHeader ledgerC2) r "OrderID" ≠ "3") ∧
    update_order_status ledgerC2 "3" "Готов" = (false, ledgerC2) :=
  ⟨by decide, update_status_not_found ledgerC2 "3" "Готов" (by decide)⟩

/-- C9 (implicit): update_order_status matches the target order by string
equality of the stringified stored OrderID and the input id, so an input id
that is numerically equal to a stored id (both parse to the same integer) but
textually different from every stored id — such as "01" against stored id
1 — reports not-found and writes nothing. -/
theorem update_matching_is_textual (ledger : Ledger) (oid st : String)
    (n : Int) (_hoid : pyInt? oid = some n)
    (_hnum : ∃ r ∈ ledgerRecords ledger,
      pyInt? (recordShow (ledgerHeader ledger) r "OrderID") = some n)
    (htext : ∀ r ∈ ledgerRecords ledger,
      recordShow (ledgerHeader ledger) r "OrderID" ≠ oid) :
    update_order_status ledger oid st = (false, ledger) :=
  update_status_no_match ledger oid st htext

/-- Concrete ledger with one stored order, id 1, for the C9 witness. -/
def ledgerC9 : Ledger :=
  [ordersHeader,
   [.int 1, .int 7, .str "u", .str "Шоколадный", .int 500, .str "шоколад",
    .int 8, .str "ягоды", .str initialStatus, .str "2024-05-06 07:08:09"]]

/-- Witness for C9: input "01" is numerically equal to the stored id 1 but
textually different, and the update reports not-found with the ledger
unchanged. -/
theorem update_matching_is_textual_witness :
    pyInt? "01" = some 1 ∧
    (∃ r ∈ ledgerRecords ledgerC9,
      pyInt? (recordShow (ledgerHeader ledgerC9) r "OrderID") = some 1) ∧
    update_order_status ledgerC9 "01" "Готов" = (false, ledgerC9) :=
  ⟨by decide, by decide,
   update_matching_is_textual ledgerC9 "01" "Готов" 1 (by decide) (by decide)
     (by decide)⟩

/-- One successful create step: from a ledger of at least two rows whose last
row carries the numeric id n in its first cell, create_new_order assigns
n + 1 and appends the corresponding row. -/
lemma create_new_order_step (l : Ledger) (a : CreateArgs) (n : Int) (r0 : Row)
    (hlen : 2 ≤ l.length) (hlast : l.getLast? = some r0)
    (hhead : r0.head? = some (.int n)) :
    create_new_order l a = some (n + 1, l ++ [orderRow (n + 1) a]) := by
  unfold create_new_order
  simp only [if_neg (show ¬l.length < 2 by omega), hlast, hhead, Cell.toInt?]

/-- Invariant for sequential creations: from a ledger of at least two rows
whose last row carries the numeric id n in its first cell, every create
succeeds and the returned ids count up from n + 1. -/
lemma createSeq_ids (args : List CreateArgs) :
    ∀ (l : Ledger) (n : Int) (r0 : Row), 2 ≤ l.length →
      l.getLast? = some r0 → r0.head? = some (.int n) →
      (createSeq args l).1 =
        (List.range args.length).map (fun i : Nat => some (n + 1 + (i : Int))) := by
  induction args with
  | nil => intro l n r0 _ _ _; rfl
  | cons a rest ih =>
    intro l n r0 hlen hlast hhead
    have hcreate := create_new_order_step l a n r0 hlen hlast hhead
    have hnext := ih (l ++ [orderRow (n + 1) a]) (n + 1) (orderRow (n + 1) a)
      (by simp; omega) (List.getLast?_concat l) rfl
    simp only [createSeq, hcreate]
    rw [hnext, List.length_cons, List.range_succ_eq_map, List.map_cons,
      List.map_map]
    congr 1
    · norm_num
    · congr 1
      funext i
      congr 1
      push_cast
      ring

/-- reduceOption undoes a map of some. -/
lemma reduceOption_map_some_eq (xs : List Int) :
    (xs.map some).reduceOption = xs := by
  induction xs with
  | nil => rfl
  | cons x xs ih => simp [List.reduceOption_cons_of_some, ih]

/-- C1: starting from an empty ledger (header row only), every finite
sequence of sequential create_new_order calls succeeds and returns the
OrderIDs 1, 2, 3, ..., a strictly increasing sequence: each call reads the
last data row's first cell, assigns lastID + 1 (1 when no data rows exist)
and appends a row carrying that id. -/
theorem create_order_sequential_ids (args : List CreateArgs) (header : Row) :
    (createSeq args [header]).1 =
      (List.range args.length).map (fun i : Nat => some ((i : Int) + 1)) ∧
    List.Chain' (· < ·) ((createSeq args [header]).1).reduceOption := by
  have hmain : (createSeq args [header]).1 =
      (List.range args.length).map (fun i : Nat => some ((i : Int) + 1)) := by
    cases args with
    | nil => rfl
    | cons a rest =>
      have hcreate : create_new_order [header] a =
          some (1, [header] ++ [orderRow 1 a]) := by
        unfold create_new_order
        rw [if_pos (by simp)]
      have hnext := createSeq_ids rest ([header] ++ [orderRow 1 a]) 1
        (orderRow 1 a) (by simp) (List.getLast?_concat _) rfl
      simp only [createSeq, hcreate]
      rw [hnext, List.length_cons, List.range_succ_eq_map, List.map_cons,
        List.map_map]
      congr 1
      apply List.map_congr_left
      intro i _
      show some ((1 : Int) + 1 + i) = some ((Nat.succ i : Int) + 1)
      congr 1
      push_cast
      ring
  refine ⟨hmain, ?_⟩
  rw [hmain]
  rw [show (List.range args.length).map (fun i : Nat => some ((i : Int) + 1)) =
        ((List.range args.length).map (fun i : Nat => (i : Int) + 1)).map some by
      rw [List.map_map]; rfl]
  rw [reduceOption_map_some_eq]
  exact List.Pairwise.chain'
    (List.Pairwise.map (fun i : Nat => (i : Int) + 1)
      (fun a b h => by show (a : Int) + 1 < (b : Int) + 1; omega)
      (List.pairwise_lt_range args.length))

/-- C3: in every non-Idle session state, whatever draft has been collected,
the cancel signal (the text of the cancel button) is dispatched to the global
cancel handler — registered before every state-specific handler — and yields
Idle with an empty draft, the ledger untouched, and only the return-to-menu
reply. -/
theorem cancel_any_state (env : Env) (ledger : Ledger) (sess : Session)
    (_h : sess.state ≠ SState.Idle) :
    o3_handle_message env ledger sess cancelText =
      ⟨clearedSession, ledger,
       [if env.is_admin then "Возврат в админ-меню."
        else "Возврат в пользовательское меню."]⟩ := by
  have hs : isStartCommand "Отмена" = false := by decide
  simp [o3_handle_message, hs, o3_handle_cancel, cancelText]

/-- Concrete environment for the cancel witness: a customer identity. -/
def envCustomer : Env :=
  ⟨false, 7, "u", [], "2024-05-06 07:08:09"⟩

/-- Witness for C3: cancelling from Confirming with a half-collected draft
returns to Idle with an empty draft and the ledger untouched. -/
theorem cancel_any_state_witness :
    (⟨SState.Confirming, none, none, some "8", none⟩ : Session).state ≠ SState.Idle ∧
    o3_handle_message envCustomer [ordersHeader]
        ⟨SState.Confirming, none, none, some "8", none⟩ cancelText =
      ⟨clearedSession, [ordersHeader],
       [if envCustomer.is_admin then "Возврат в админ-меню."
        else "Возврат в пользовательское меню."]⟩ :=
  ⟨by decide,
   cancel_any_state envCustomer [ordersHeader]
     ⟨SState.Confirming, none, none, some "8", none⟩ (by decide)⟩

/-- Predicate following the spec's words for C4, to compare against the code
gate: the input parses as a positive integer. -/
def specParsesAsPositiveInt (s : String) : Bool :=
  match pyInt? s with
  | some n => decide (0 < n)
  | none => false

/-- Concrete session in the size-choosing state. -/
def sessChoosingSize : Session :=
  ⟨.ChoosingSize, some ⟨"Шоколадный", "500", "вкусный", ""⟩, some "шоколад",
   none, none⟩

/-- Counterexample to C4 as stated: the input "0" does not parse as a
positive integer, yet the handler takes the transition to ChoosingDecor and
stores size "0" — the gate is str.isdigit(), which accepts zero. -/
theorem choosing_size_zero_counterexample :
    specParsesAsPositiveInt "0" = false ∧
    (process_choosing_size false sessChoosingSize "0").session.state =
      SState.ChoosingDecor ∧
    (process_choosing_size false sessChoosingSize "0").session.size = some "0" := by
  decide

/-- C4 as amended: in ChoosingSize the transition to ChoosingDecor is taken,
with the stripped input stored as the size, exactly when the stripped input
is a nonempty string of digits (str.isdigit()); any other input leaves the
whole session — state and draft — unchanged and re-prompts. -/
theorem choosing_size_digit_gate (is_admin : Bool) (sess : Session)
    (text : String) :
    (pyIsdigit (pyStrip text) = true →
      (process_choosing_size is_admin sess text).session =
        ⟨SState.ChoosingDecor, sess.chosen_cake, sess.taste,
         some (pyStrip text), sess.decor⟩) ∧
    (pyIsdigit (pyStrip text) = false →
      (process_choosing_size is_admin sess text).session = sess ∧
      (process_choosing_size is_admin sess text).replies.getLast? =
        some "Пожалуйста, введите числовое значение для количества персон.") := by
  constructor
  · intro h
    simp [process_choosing_size, h]
  · intro h
    refine ⟨by simp [process_choosing_size, h], ?_⟩
    simp [process_choosing_size, h, List.getLast?_concat]

/-- Witness for C4 as amended: "12" advances with size "12"; "1x" re-prompts
leaving the session unchanged. -/
theorem choosing_size_digit_gate_witness :
    pyIsdigit (pyStrip "12") = true ∧
    (process_choosing_size false sessChoosingSize "12").session =
      ⟨SState.ChoosingDecor, sessChoosingSize.chosen_cake,
       sessChoosingSize.taste, some (pyStrip "12"), sessChoosingSize.decor⟩ ∧
    pyIsdigit (pyStrip "1x") = false ∧
    (process_choosing_size false sessChoosingSize "1x").session =
      sessChoosingSize :=
  ⟨by decide,
   (choosing_size_digit_gate false sessChoosingSize "12").1 (by decide),
   by decide,
   ((choosing_size_digit_gate false sessChoosingSize "1x").2 (by decide)).1⟩

/-- C8: cmd_menu invoked by an operator identity sends the fixed denial
message but — because the return after it is commented out — still fetches
the catalog and advances the session from Idle to ChoosingCake: the denial
does not stop the customer-track action. -/
theorem cmd_menu_admin_continues :
    (cmd_menu true [⟨"Шоколадный", "500", "вкусный", ""⟩] SState.Idle).session_state =
      SState.ChoosingCake ∧
    (cmd_menu true [⟨"Шоколадный", "500", "вкусный", ""⟩] SState.Idle).catalogFetched =
      true ∧
    "Администратор не может использовать эту команду." ∈
      (cmd_menu true [⟨"Шоколадный", "500", "вкусный", ""⟩] SState.Idle).replies := by
  decide

/-- C10: in Confirming the decision is made on the input stripped of
surrounding whitespace and lowercased, so every case variant of the
affirmative word submits the draft to the ledger and clears the session,
every case variant of the negative word clears the session without a ledger
write, and any other input re-prompts with session, draft and ledger
untouched. -/
theorem confirming_case_variants (is_admin : Bool) (uid : Int) (uname : String)
    (cake : Cake) (taste size decor : String) (ledger : Ledger)
    (now text : String) :
    (pyLower (pyStrip text) = "да" →
      (process_confirming is_admin uid uname
          ⟨SState.Confirming, some cake, some taste, some size, some decor⟩
          ledger now text).createCalled = true ∧
      (process_confirming is_admin uid uname
          ⟨SState.Confirming, some cake, some taste, some size, some decor⟩
          ledger now text).session = clearedSession ∧
      (process_confirming is_admin uid uname
          ⟨SState.Confirming, some cake, some taste, some size, some decor⟩
          ledger now text).ledger =
        (match create_new_order ledger ⟨uid, uname, cake, taste, size, decor, now⟩ with
         | some p => p.2
         | none => ledger)) ∧
    (pyLower (pyStrip text) = "нет" →
      (process_confirming is_admin uid uname
          ⟨SState.Confirming, some cake, some taste, some size, some decor⟩
          ledger now text).createCalled = false ∧
      (process_confirming is_admin uid uname
          ⟨SState.Confirming, some cake, some taste, some size, some decor⟩
          ledger now text).session = clearedSession ∧
      (process_confirming is_admin uid uname
          ⟨SState.Confirming, some cake, some taste, some size, some decor⟩
          ledger now text).ledger = ledger) ∧
    (pyLower (pyStrip text) ≠ "да" → pyLower (pyStrip text) ≠ "нет" →
      (process_confirming is_admin uid uname
          ⟨SState.Confirming, some cake, some taste, some size, some decor⟩
          ledger now text).createCalled = false ∧
      (process_confirming is_admin uid uname
          ⟨SState.Confirming, some cake, some taste, some size, some decor⟩
          ledger now text).session =
        ⟨SState.Confirming, some cake, some taste, some size, some decor⟩ ∧
      (process_confirming is_admin uid uname
          ⟨SState.Confirming, some cake, some taste, some size, some decor⟩
          ledger now text).ledger = ledger ∧
      (process_confirming is_admin uid uname
          ⟨SState.Confirming, some cake, some taste, some size, some decor⟩
          ledger now text).replies ≠ []) := by
  refine ⟨?_, ?_, ?_⟩
  · intro h
    rcases hc : create_new_order ledger ⟨uid, uname, cake, taste, size, decor, now⟩ with _ | ⟨oid, l2⟩
    · simp [process_confirming, h, hc]
    · simp [process_confirming, h, hc]
  · intro h
    simp [process_confirming, h]
  · intro h1 h2
    simp [process_confirming, h1, h2]

/-- Witness for C10: "ДА" submits; " Нет " discards with the ledger
untouched; "может" re-prompts preserving the draft. -/
theorem confirming_case_variants_witness :
    pyLower (pyStrip "ДА") = "да" ∧
    (process_confirming false 7 "u"
        ⟨SState.Confirming, some ⟨"Шоколадный", "500", "вкусный", ""⟩,
         some "шоколад", some "8", some "ягоды"⟩
        [ordersHeader] "2024-05-06 07:08:09" "ДА").createCalled = true ∧
    pyLower (pyStrip " Нет ") = "нет" ∧
    (process_confirming false 7 "u"
        ⟨SState.Confirming, some ⟨"Шоколадный", "500", "вкусный", ""⟩,
         some "шоколад", some "8", some "ягоды"⟩
        [ordersHeader] "2024-05-06 07:08:09" " Нет ").ledger = [ordersHeader] ∧
    (process_confirming false 7 "u"
        ⟨SState.Confirming, some ⟨"Шоколадный", "500", "вкусный", ""⟩,
         some "шоколад", some "8", some "ягоды"⟩
        [ordersHeader] "2024-05-06 07:08:09" "может").session =
      ⟨SState.Confirming, some ⟨"Шоколадный", "500", "вкусный", ""⟩,
       some "шоколад", some "8", some "ягоды"⟩ :=
  ⟨by decide,
   ((confirming_case_variants false 7 "u" ⟨"Шоколадный", "500", "вкусный", ""⟩
       "шоколад" "8" "ягоды" [ordersHeader] "2024-05-06 07:08:09" "ДА").1
     (by decide)).1,
   by decide,
   ((confirming_case_variants false 7 "u" ⟨"Шоколадный", "500", "вкусный", ""⟩
       "шоколад" "8" "ягоды" [ordersHeader] "2024-05-06 07:08:09" " Нет ").2.1
     (by decide)).2.2,
   ((confirming_case_variants false 7 "u" ⟨"Шоколадный", "500", "вкусный", ""⟩
       "шоколад" "8" "ягоды" [ordersHeader] "2024-05-06 07:08:09" "может").2.2
     (by decide) (by decide)).2.1⟩

/-- Concrete ledger with one stored order, id 1, owner 42, for C7. -/
def ledgerC7 : Ledger :=
  [ordersHeader,
   [.int 1, .int 42, .str "u", .str "Шоколадный", .int 500, .str "шоколад",
    .int 8, .str "ягоды", .str initialStatus, .str "2024-05-06 07:08:09"]]

/-- Counterexample to C7 as stated: the operator input "1 Готов завтра"
splits into three whitespace-separated tokens, not exactly two, yet the
handler invokes the status update — split(maxsplit=1) only separates the
first token, so the second part may contain whitespace — and the ledger is
written. -/
theorem update_input_three_tokens_counterexample :
    pySplitAll "1 Готов завтра" = ["1", "Готов", "завтра"] ∧
    (pySplitAll "1 Готов завтра").length ≠ 2 ∧
    (process_update_status true ledgerC7 "1 Готов завтра").updateCall =
      some ("1", "Готов завтра") ∧
    (process_update_status true ledgerC7 "1 Готов завтра").ledger ≠ ledgerC7 := by
  decide

/-- C7 as amended: in the UpdatingOrderStatus state, for an operator, the
status update is invoked — with exactly the two parts of
strip-then-split(maxsplit=1) — exactly when that split yields two parts and
the first is a digit string; any other input re-prompts, leaves the ledger
unchanged and keeps the session in the UpdatingOrderStatus state. -/
theorem update_input_validation (ledger : Ledger) (text : String) :
    (parseUpdateInput? text = none →
      (process_update_status true ledger text).updateCall = none ∧
      (process_update_status true ledger text).ledger = ledger ∧
      (process_update_status true ledger text).session_state =
        SState.UpdatingOrderStatus ∧
      (process_update_status true ledger text).replies ≠ []) ∧
    (∀ oid st, parseUpdateInput? text = some (oid, st) →
      (process_update_status true ledger text).updateCall = some (oid, st)) := by
  by_cases hin : pyStrip text = ""
  · have hsp : pySplitMax1 (pyStrip text) = [] := by rw [hin]; rfl
    constructor
    · intro _
      simp [process_update_status, hin]
    · intro oid st hps
      simp [parseUpdateInput?, hsp] at hps
  · cases hsp : pySplitMax1 (pyStrip text) with
    | nil =>
      constructor
      · intro _
        simp [process_update_status, hin, hsp]
      · intro oid st hps
        simp [parseUpdateInput?, hsp] at hps
    | cons a tl =>
      cases tl with
      | nil =>
        constructor
        · intro _
          simp [process_update_status, hin, hsp]
        · intro oid st hps
          simp [parseUpdateInput?, hsp] at hps
      | cons b tl2 =>
        cases tl2 with
        | nil =>
          by_cases hd : pyIsdigit a = true
          · constructor
            · intro hps
              simp [parseUpdateInput?, hsp, hd] at hps
            · intro oid st hps
              have hab : a = oid ∧ b = st := by
                simpa [parseUpdateInput?, hsp, hd] using hps
              rcases hab with ⟨rfl, rfl⟩
              simp [process_update_status, hin, hsp, hd]
              repeat' split
              all_goals rfl
          · have hd2 : pyIsdigit a = false := by
              cases h : pyIsdigit a
              · rfl
              · exact absurd h hd
            constructor
            · intro _
              simp [process_update_status, hin, hsp, hd2]
            · intro oid st hps
              simp [parseUpdateInput?, hsp, hd2] at hps
        | cons c tl3 =>
          constructor
          · intro _
            simp [process_update_status, hin, hsp]
          · intro oid st hps
            simp [parseUpdateInput?, hsp] at hps

/-- Witness for C7 as amended: the spec scenario "abc Delivered" fails
validation with the ledger unchanged and the session still awaiting input,
while "1 Доставлен" invokes the update with those two arguments. -/
theorem update_input_validation_witness :
    parseUpdateInput? "abc Доставлен" = none ∧
    (process_update_status true ledgerC7 "abc Доставлен").ledger = ledgerC7 ∧
    (process_update_status true ledgerC7 "abc Доставлен").session_state =
      SState.UpdatingOrderStatus ∧
    parseUpdateInput? "1 Доставлен" = some ("1", "Доставлен") ∧
    (process_update_status true ledgerC7 "1 Доставлен").updateCall =
      some ("1", "Доставлен") :=
  ⟨by decide,
   ((update_input_validation ledgerC7 "abc Доставлен").1 (by decide)).2.1,
   ((update_input_validation ledgerC7 "abc Доставлен").1 (by decide)).2.2.1,
   by decide,
   (update_input_validation ledgerC7 "1 Доставлен").2 "1" "Доставлен" (by decide)⟩

/-- The page count covers all records: total ≤ page_size * pages. -/
lemma pagesCount_le_mul (t ps : Nat) (h : 0 < ps) :
    t ≤ ps * pagesCount t ps := by
  have hd := Nat.div_add_mod (t + ps - 1) ps
  have hm : (t + ps - 1) % ps < ps := Nat.mod_lt _ h
  have hq : pagesCount t ps = (t + ps - 1) / ps := rfl
  rw [← hq] at hd
  omega

/-- The page count is tight: one page fewer would not cover all records. -/
lemma pagesCount_pred_mul_lt (t ps : Nat) (h : 0 < ps)
    (hpos : 0 < pagesCount t ps) :
    ps * (pagesCount t ps - 1) < t := by
  have hd := Nat.div_add_mod (t + ps - 1) ps
  have hm : (t + ps - 1) % ps < ps := Nat.mod_lt _ h
  have hq : pagesCount t ps = (t + ps - 1) / ps := rfl
  rw [← hq] at hd
  have hstep : ps * (pagesCount t ps - 1) + ps = ps * pagesCount t ps := by
    rcases Nat.exists_eq_add_of_lt hpos with ⟨k, hk⟩
    have hk2 : pagesCount t ps = k + 1 := by omega
    rw [hk2]
    simp [Nat.mul_succ]
  omega

/-- The page count is the ceiling of total / page_size. -/
lemma pagesCount_eq_ceil (t ps : Nat) (h : 0 < ps) :
    pagesCount t ps = ⌈(t : ℚ) / (ps : ℚ)⌉₊ := by
  have hq : (0 : ℚ) < (ps : ℚ) := by exact_mod_cast h
  apply le_antisymm
  · rcases Nat.eq_zero_or_pos (pagesCount t ps) with h0 | hpos
    · simp [h0]
    · have h1 : pagesCount t ps - 1 < ⌈(t : ℚ) / (ps : ℚ)⌉₊ := by
        rw [Nat.lt_ceil, lt_div_iff₀ hq]
        have hlt := pagesCount_pred_mul_lt t ps h hpos
        exact_mod_cast Nat.mul_comm ps (pagesCount t ps - 1) ▸ hlt
      omega
  · rw [Nat.ceil_le, div_le_iff₀ hq]
    have hle := pagesCount_le_mul t ps h
    exact_mod_cast Nat.mul_comm ps (pagesCount t ps) ▸ hle

/-- Walking "next" from any in-range page visits exactly the remaining pages,
in order, provided the fuel covers the distance. -/
lemma nextPages_eq_range (t ps : Nat) :
    ∀ (fuel p : Nat), p < pagesCount t ps → pagesCount t ps - 1 - p ≤ fuel →
      nextPages t ps p fuel = List.range' p (pagesCount t ps - p) := by
  intro fuel
  induction fuel with
  | zero =>
    intro p hp hf
    have h1 : pagesCount t ps - p = 1 := by omega
    have hn : hasNextB t ps p = false := by
      simp only [hasNextB, decide_eq_false_iff_not]
      omega
    simp [nextPages, h1]
  | succ fuel ih =>
    intro p hp hf
    by_cases hn : (p : Int) < (pagesCount t ps : Int) - 1
    · have hb : hasNextB t ps p = true := by
        simp only [hasNextB, decide_eq_true_eq]
        exact hn
      have hp2 : p + 1 < pagesCount t ps := by omega
      rw [show nextPages t ps p (fuel + 1) =
            (if hasNextB t ps p then p :: nextPages t ps (p + 1) fuel else [p])
          from rfl,
        hb, if_pos rfl, ih (p + 1) hp2 (by omega),
        show pagesCount t ps - p = (pagesCount t ps - (p + 1)) + 1 by omega,
        List.range'_succ]
    · have hb : hasNextB t ps p = false := by
        simp only [hasNextB, decide_eq_false_iff_not]
        exact hn
      have h1 : pagesCount t ps - p = 1 := by omega
      simp [nextPages, hb, h1]

/-- Walking "previous" from any page comes back to page 0 once the fuel
covers the distance. -/
lemma prevSteps_eq_zero : ∀ (fuel p : Nat), p ≤ fuel → prevSteps p fuel = 0 := by
  intro fuel
  induction fuel with
  | zero =>
    intro p hp
    have h0 : p = 0 := by omega
    subst h0
    rfl
  | succ fuel ih =>
    intro p hp
    by_cases h0 : 0 < p
    · have hb : hasPrevB p = true := by simp [hasPrevB, h0]
      rw [show prevSteps p (fuel + 1) =
            (if hasPrevB p then prevSteps (p - 1) fuel else p) from rfl,
        hb, if_pos rfl]
      exact ih (p - 1) (by omega)
    · have hp0 : p = 0 := by omega
      subst hp0
      simp [prevSteps, hasPrevB]

/-- C5 as amended: for page_size > 0 the renderer computes page count
ceil(total / page_size), offers "previous" exactly when the 0-based page
index is positive and "next" exactly when it is below pageCount - 1 (integer
arithmetic); consequently, for a nonempty record list, repeated "next" from
page 0 visits exactly the pages 0, ..., pageCount - 1, and repeated
"previous" from any page returns to page 0. -/
theorem pagination_contract (header : Row) (orders : List Row)
    (page page_size : Nat) (hps : 0 < page_size) :
    pagesCount orders.length page_size =
      ⌈(orders.length : ℚ) / (page_size : ℚ)⌉₊ ∧
    ((get_orders_page_text_and_markup header orders page page_size).hasPrev =
        true ↔ 0 < page) ∧
    ((get_orders_page_text_and_markup header orders page page_size).hasNext =
        true ↔
      (page : Int) < (pagesCount orders.length page_size : Int) - 1) ∧
    (0 < orders.length →
      nextPages orders.length page_size 0 orders.length =
        List.range (pagesCount orders.length page_size)) ∧
    prevSteps page page = 0 := by
  refine ⟨pagesCount_eq_ceil _ _ hps, ?_, ?_, ?_,
    prevSteps_eq_zero page page le_rfl⟩
  · simp [get_orders_page_text_and_markup, hasPrevB]
  · simp [get_orders_page_text_and_markup, hasNextB]
  · intro ht
    have hpos : 0 < pagesCount orders.length page_size := by
      by_contra h0
      have h00 : pagesCount orders.length page_size = 0 := by omega
      have hle := pagesCount_le_mul orders.length page_size hps
      rw [h00, Nat.mul_zero] at hle
      omega
    have hlt : pagesCount orders.length page_size < orders.length + 1 := by
      rw [pagesCount, Nat.div_lt_iff_lt_mul hps]
      have hle : orders.length ≤ orders.length * page_size :=
        Nat.le_mul_of_pos_right _ hps
      have hmul : (orders.length + 1) * page_size =
          orders.length * page_size + page_size := by ring
      omega
    rw [nextPages_eq_range orders.length page_size orders.length 0 hpos
        (by omega),
      Nat.sub_zero, List.range_eq_range']

/-- Concrete record list of three rows for the C5 witness. -/
def ordersC5 : List Row :=
  [[Cell.int 1], [Cell.int 2], [Cell.int 3]]

/-- Witness for C5 as amended, at three records, page size 2, page 1:
page count ceil(3/2) = 2, both affordance equivalences, the next-walk
0 → 1 covering both pages, and previous returning to 0. -/
theorem pagination_contract_witness :
    (0 : Nat) < 2 ∧ 0 < ordersC5.length ∧
    pagesCount ordersC5.length 2 = ⌈(ordersC5.length : ℚ) / (2 : ℚ)⌉₊ ∧
    ((get_orders_page_text_and_markup [] ordersC5 1 2).hasPrev = true ↔
      (0 : Nat) < 1) ∧
    nextPages ordersC5.length 2 0 ordersC5.length =
      List.range (pagesCount ordersC5.length 2) ∧
    prevSteps 1 1 = 0 :=
  ⟨by decide, by decide,
   (pagination_contract [] ordersC5 1 2 (by decide)).1,
   (pagination_contract [] ordersC5 1 2 (by decide)).2.1,
   (pagination_contract [] ordersC5 1 2 (by decide)).2.2.2.1 (by decide),
   (pagination_contract [] ordersC5 1 2 (by decide)).2.2.2.2⟩

/-- Counterexample to C5 as stated at total = 0: with an empty record list
and page size 1 the page count is ceil(0/1) = 0, yet repeated "next" from
page 0 visits one page (page 0 itself), not zero pages. -/
theorem pagination_empty_counterexample :
    pagesCount (([] : List Row).length) 1 = 0 ∧
    (nextPages (([] : List Row).length) 1 0 (([] : List Row).length)).length = 1 ∧
    (nextPages (([] : List Row).length) 1 0 (([] : List Row).length)).length ≠
      pagesCount (([] : List Row).length) 1 := by
  decide

/-- C6: for every order list displayed to a consumer, if every record's date
parses in the YYYY-MM-DD HH:MM:SS format, the displayed list is a
permutation of the records sorted by creation timestamp, descending; if at
least one record's date fails to parse, the entire result set for that call
is displayed in store-native order — the sort is all-or-nothing, with no
per-record skipping. -/
theorem status_sort_all_or_nothing (header : Row) (orders : List Row) :
    ((orders.all fun r => (dateKey? header r).isSome) = true →
      (sortOrdersForDisplay header orders).Perm orders ∧
      (sortOrdersForDisplay header orders).Pairwise
        (fun a b => dateKeyD header b ≤ dateKeyD header a)) ∧
    ((orders.all fun r => (dateKey? header r).isSome) = false →
      sortOrdersForDisplay header orders = orders) := by
  constructor
  · intro h
    have hrw : sortOrdersForDisplay header orders =
        orders.mergeSort
          (fun a b => decide (dateKeyD header b ≤ dateKeyD header a)) := by
      simp only [sortOrdersForDisplay]
      rw [if_pos h]
    rw [hrw]
    refine ⟨List.mergeSort_perm orders _, ?_⟩
    have hs : (orders.mergeSort
        (fun a b => decide (dateKeyD header b ≤ dateKeyD header a))).Pairwise
        (fun a b => decide (dateKeyD header b ≤ dateKeyD header a) = true) := by
      apply List.sorted_mergeSort
      · intro a b c hab hbc
        simp only [decide_eq_true_eq] at hab hbc ⊢
        omega
      · intro a b
        simp only [Bool.or_eq_true, decide_eq_true_eq]
        omega
    exact List.Pairwise.imp (fun hab => by simpa using hab) hs
  · intro h
    simp only [sortOrdersForDisplay]
    rw [if_neg (by simp [h])]

/-- Concrete data row with a given date field for the C6 witness. -/
def rowWithDate (oid : Int) (d : String) : Row :=
  [.int oid, .int 7, .str "u", .str "Шоколадный", .int 500, .str "шоколад",
   .int 8, .str "ягоды", .str initialStatus, .str d]

/-- Witness for C6: two parsable dates get the sorted display with the
descending key order; one unparsable date keeps the store-native order. -/
theorem status_sort_all_or_nothing_witness :
    (([rowWithDate 1 "2023-01-01 00:00:00",
       rowWithDate 2 "2024-05-06 07:08:09"].all
        fun r => (dateKey? ordersHeader r).isSome) = true ∧
      (sortOrdersForDisplay ordersHeader
          [rowWithDate 1 "2023-01-01 00:00:00",
           rowWithDate 2 "2024-05-06 07:08:09"]).Perm
        [rowWithDate 1 "2023-01-01 00:00:00",
         rowWithDate 2 "2024-05-06 07:08:09"] ∧
      (sortOrdersForDisplay ordersHeader
          [rowWithDate 1 "2023-01-01 00:00:00",
           rowWithDate 2 "2024-05-06 07:08:09"]).Pairwise
        (fun a b => dateKeyD ordersHeader b ≤ dateKeyD ordersHeader a)) ∧
    (([rowWithDate 1 "2023-01-01 00:00:00", rowWithDate 2 "той осенью"].all
        fun r => (dateKey? ordersHeader r).isSome) = false ∧
      sortOrdersForDisplay ordersHeader
          [rowWithDate 1 "2023-01-01 00:00:00", rowWithDate 2 "той осенью"] =
        [rowWithDate 1 "2023-01-01 00:00:00", rowWithDate 2 "той осенью"]) :=
  ⟨⟨by decide,
    (status_sort_all_or_nothing ordersHeader
        [rowWithDate 1 "2023-01-01 00:00:00",
         rowWithDate 2 "2024-05-06 07:08:09"]).1 (by decide)⟩,
   ⟨by decide,
    (status_sort_all_or_nothing ordersHeader
        [rowWithDate 1 "2023-01-01 00:00:00",
         rowWithDate 2 "той осенью"]).2 (by decide)⟩⟩

end CakeBot
